import Mathlib

/-
Shallow embedding of the sleepme Go package (sleepme.go): a minimal HTTP
client for the sleep.me REST API.  The embedding models the package's own
code together with the behavior of the Go standard-library pieces it relies
on (encoding/json decoding and encoding for the concrete types involved,
net/http request construction and header handling, and net/url parsing),
restricted to the shapes this client actually exercises.
-/

namespace SleepMe

/-- Character class helpers used by the JSON and URL scanners. -/
def isWsChar (c : Char) : Bool :=
  c = ' ' || c = '\t' || c = '\n' || c = '\r'

def isDigitChar (c : Char) : Bool :=
  48 ≤ c.toNat && c.toNat ≤ 57

def digitVal (c : Char) : Nat :=
  c.toNat - 48

/-- Hex digit value, as used by URL percent-escapes and JSON unicode
escapes; written over code points (48-57 digits, 97-102 lower hex, 65-70
upper hex). -/
def unhex (c : Char) : Option Nat :=
  let n := c.toNat
  if 48 ≤ n && n ≤ 57 then some (n - 48)
  else if 97 ≤ n && n ≤ 102 then some (n - 87)
  else if 65 ≤ n && n ≤ 70 then some (n - 55)
  else none

/-- ASCII lower-casing, as Go's case-insensitive JSON field matching uses
(code points 65-90 are the upper-case letters). -/
def lowerChar (c : Char) : Char :=
  if 65 ≤ c.toNat && c.toNat ≤ 90 then Char.ofNat (c.toNat + 32) else c

def keyLower (s : String) : String :=
  String.mk (s.data.map lowerChar)

/-- Left and right curly brace characters. -/
def lbraceChar : Char := Char.ofNat 123

def rbraceChar : Char := Char.ofNat 125

/-- A JSON number literal as Go's scanner delivers it: the decimal mantissa
together with a power-of-ten exponent (negative for fractional digits).  A
plain integer literal always has exponent zero; Go's decoder accepts a
number into an int field exactly when the literal is a plain integer
literal, which corresponds to exponent zero here. -/
structure JNumber where
  mantissa : Int
  exp10 : Int
  deriving DecidableEq

/-- JSON values, the result of scanning one value from a response body. -/
inductive Json where
  | null : Json
  | bool (b : Bool) : Json
  | num (n : JNumber) : Json
  | str (s : String) : Json
  | arr (elems : List Json) : Json
  | obj (members : List (String × Json)) : Json

def skipWs : List Char → List Char
  | [] => []
  | c :: rest => if isWsChar c then skipWs rest else c :: rest

/-- Match a fixed literal tail, returning the remaining input on success. -/
def dropLit : List Char → List Char → Option (List Char)
  | [], cs => some cs
  | l :: ls, c :: cs => if c = l then dropLit ls cs else none
  | _ :: _, [] => none

/-- JSON string literal body scanner (after the opening quote), with the
escape sequences of RFC 8259; surrogate-pair combination is not modelled. -/
def parseStrAux : List Char → List Char → Except String (String × List Char)
  | [], _ => .error ("unexpected end of JSON string literal")
  | '"' :: rest, acc => .ok (String.mk acc.reverse, rest)
  | '\\' :: '"' :: r, acc => parseStrAux r ('"' :: acc)
  | '\\' :: '\\' :: r, acc => parseStrAux r ('\\' :: acc)
  | '\\' :: '/' :: r, acc => parseStrAux r ('/' :: acc)
  | '\\' :: 'b' :: r, acc => parseStrAux r (Char.ofNat 8 :: acc)
  | '\\' :: 'f' :: r, acc => parseStrAux r (Char.ofNat 12 :: acc)
  | '\\' :: 'n' :: r, acc => parseStrAux r ('\n' :: acc)
  | '\\' :: 'r' :: r, acc => parseStrAux r ('\r' :: acc)
  | '\\' :: 't' :: r, acc => parseStrAux r ('\t' :: acc)
  | '\\' :: 'u' :: a :: b :: c :: d :: r, acc =>
    (match unhex a, unhex b, unhex c, unhex d with
     | some ha, some hb, some hc, some hd =>
       parseStrAux r (Char.ofNat (((ha * 16 + hb) * 16 + hc) * 16 + hd) :: acc)
     | _, _, _, _ => .error ("invalid unicode escape in string literal"))
  | '\\' :: _, _ => .error ("invalid escape in string literal")
  | c :: rest, acc =>
    if c.toNat < 32 then .error ("invalid control character in string literal")
    else parseStrAux rest (c :: acc)

def digitsToNat (ds : List Char) : Nat :=
  ds.foldl (fun a c => a * 10 + digitVal c) 0

/-- Exponent part of a JSON number, after the e or E marker. -/
def parseExpPart (m : Int) (e : Int) (cs : List Char) :
    Except String (Json × List Char) :=
  let p : Int × List Char :=
    match cs with
    | '+' :: r => (1, r)
    | '-' :: r => (-1, r)
    | _ => (1, cs)
  match (p.2).span isDigitChar with
  | ([], _) => .error ("invalid number literal: missing exponent digits")
  | (ds, rest) => .ok (Json.num ⟨m, e + p.1 * (digitsToNat ds : Int)⟩, rest)

/-- JSON number scanner.  As in Go's scanner, a leading zero is a complete
integer part on its own (so the literal 01 scans as the value 0 with a 1
left over in the input). -/
def parseNumber (cs : List Char) : Except String (Json × List Char) :=
  let p : Bool × List Char :=
    match cs with
    | '-' :: r => (true, r)
    | _ => (false, cs)
  match p.2 with
  | [] => .error ("invalid number literal: no digits")
  | c :: rest =>
    if ¬ isDigitChar c then .error ("invalid number literal: no digits")
    else
      let q : List Char × List Char :=
        if c = '0' then ([c], rest) else (p.2).span isDigitChar
      let m0 : Nat := digitsToNat q.1
      match q.2 with
      | '.' :: cs3 =>
        (match cs3.span isDigitChar with
         | ([], _) => .error ("invalid number literal: missing fraction digits")
         | (fs, cs4) =>
           let m1 : Nat := m0 * 10 ^ fs.length + digitsToNat fs
           let m : Int := if p.1 then -(m1 : Int) else (m1 : Int)
           let e : Int := -(fs.length : Int)
           match cs4 with
           | 'e' :: cs5 => parseExpPart m e cs5
           | 'E' :: cs5 => parseExpPart m e cs5
           | _ => .ok (Json.num ⟨m, e⟩, cs4))
      | 'e' :: cs3 => parseExpPart (if p.1 then -(m0 : Int) else (m0 : Int)) 0 cs3
      | 'E' :: cs3 => parseExpPart (if p.1 then -(m0 : Int) else (m0 : Int)) 0 cs3
      | _ => .ok (Json.num ⟨(if p.1 then -(m0 : Int) else (m0 : Int)), 0⟩, q.2)

/-- Scanner jobs: a whole value, the remaining items of an array, or the
remaining members of an object. -/
inductive PJob where
  | value : PJob
  | arrItems (acc : List Json) : PJob
  | objItems (acc : List (String × Json)) : PJob

/-- Fuel-indexed scanner for one JSON value, modelling Go's
encoding/json scanner as driven by Decoder.Decode.  The fuel only bounds
recursion depth; jsonParse below supplies enough for any input. -/
def parseStep : Nat → PJob → List Char → Except String (Json × List Char)
  | 0, _, _ => .error ("JSON scanner fuel exhausted")
  | Nat.succ fuel, PJob.value, cs0 =>
    (match skipWs cs0 with
     | [] => .error ("unexpected end of JSON input")
     | c :: rest =>
       if c = 'n' then
         (match dropLit ['u', 'l', 'l'] rest with
          | some r => .ok (Json.null, r)
          | none => .error ("invalid character in literal null"))
       else if c = 't' then
         (match dropLit ['r', 'u', 'e'] rest with
          | some r => .ok (Json.bool true, r)
          | none => .error ("invalid character in literal true"))
       else if c = 'f' then
         (match dropLit ['a', 'l', 's', 'e'] rest with
          | some r => .ok (Json.bool false, r)
          | none => .error ("invalid character in literal false"))
       else if c = '"' then
         (match parseStrAux rest [] with
          | .error e => .error e
          | .ok (s, r) => .ok (Json.str s, r))
       else if c = '[' then
         (match skipWs rest with
          | [] => .error ("unexpected end of JSON input")
          | c2 :: r2 =>
            if c2 = ']' then .ok (Json.arr [], r2)
            else parseStep fuel (PJob.arrItems []) (c2 :: r2))
       else if c = lbraceChar then
         (match skipWs rest with
          | [] => .error ("unexpected end of JSON input")
          | c2 :: r2 =>
            if c2 = rbraceChar then .ok (Json.obj [], r2)
            else parseStep fuel (PJob.objItems []) (c2 :: r2))
       else if c = '-' ∨ isDigitChar c then parseNumber (c :: rest)
       else .error ("invalid character at start of JSON value"))
  | Nat.succ fuel, PJob.arrItems acc, cs0 =>
    (match parseStep fuel PJob.value cs0 with
     | .error e => .error e
     | .ok (j, r1) =>
       match skipWs r1 with
       | [] => .error ("unexpected end of JSON input inside array")
       | c :: r2 =>
         if c = ',' then parseStep fuel (PJob.arrItems (j :: acc)) r2
         else if c = ']' then .ok (Json.arr (j :: acc).reverse, r2)
         else .error ("invalid character after array element"))
  | Nat.succ fuel, PJob.objItems acc, cs0 =>
    (match skipWs cs0 with
     | [] => .error ("unexpected end of JSON input inside object")
     | c :: r1 =>
       if c = '"' then
         (match parseStrAux r1 [] with
          | .error e => .error e
          | .ok (k, r2) =>
            match skipWs r2 with
            | [] => .error ("unexpected end of JSON input inside object")
            | c2 :: r3 =>
              if c2 = ':' then
                (match parseStep fuel PJob.value r3 with
                 | .error e => .error e
                 | .ok (v, r4) =>
                   match skipWs r4 with
                   | [] => .error ("unexpected end of JSON input inside object")
                   | c3 :: r5 =>
                     if c3 = ',' then parseStep fuel (PJob.objItems ((k, v) :: acc)) r5
                     else if c3 = rbraceChar then .ok (Json.obj ((k, v) :: acc).reverse, r5)
                     else .error ("invalid character after object member"))
              else .error ("invalid character after object key"))
       else .error ("invalid character at start of object key"))

/-- Decoder.Decode reads exactly one JSON value from the body and leaves
any trailing bytes unread, so trailing input after a complete first value
is not an error here either.  An empty or whitespace-only body is an error
(Go reports io.EOF). -/
def jsonParse (s : String) : Except String Json :=
  match parseStep (2 * s.length + 2) PJob.value s.data with
  | .error e => .error e
  | .ok (j, _) => .ok j

/-! Data shapes from sleepme.go. -/

/-- Device represents a Dock Pro unit (sleepme.go lines 39-43).  The Go
field Attachments is a nil-able slice; none models the nil slice, which is
distinct from an empty one. -/
structure Device where
  ID : String
  Name : String
  Attachments : Option (List String)
  deriving DecidableEq

def zeroDevice : Device := ⟨ "", "", none⟩

/-- About group of DeviceDetails (sleepme.go lines 71-78). -/
structure DeviceAbout where
  FirmwareVersion : String
  IpAddress : String
  LanAddress : String
  MacAddress : String
  Model : String
  SerialNumber : String
  deriving DecidableEq

/-- Control group of DeviceDetails (sleepme.go lines 80-87). -/
structure DeviceControl where
  BrightnessLevel : Int
  DisplayTemperatureUnit : String
  SetTemperatureC : Int
  SetTemperatureF : Int
  ThermalControlStatus : String
  TimeZone : String
  deriving DecidableEq

/-- Status group of DeviceDetails (sleepme.go lines 89-95).  The Go field
WaterTemperatureC is a float64; it is modelled by the scanned number
literal. -/
structure DeviceStatus where
  IsConnected : Bool
  IsWaterLow : Bool
  WaterLevel : Int
  WaterTemperatureF : Int
  WaterTemperatureC : JNumber
  deriving DecidableEq

/-- DeviceDetails contains all the details available via the API
(sleepme.go lines 70-96). -/
structure DeviceDetails where
  About : DeviceAbout
  Control : DeviceControl
  Status : DeviceStatus
  deriving DecidableEq

def zeroDeviceAbout : DeviceAbout := ⟨ "", "", "", "", "", ""⟩

def zeroDeviceControl : DeviceControl := ⟨0, "", 0, 0, "", ""⟩

def zeroDeviceStatus : DeviceStatus := ⟨false, false, 0, 0, ⟨0, 0⟩⟩

def zeroDeviceDetails : DeviceDetails :=
  ⟨zeroDeviceAbout, zeroDeviceControl, zeroDeviceStatus⟩

/-- ThermalControlStatus configures if the unit is active or not
(sleepme.go line 123); a Go string type. -/
abbrev ThermalControlStatus := String

def ThermalControlStatusActive : ThermalControlStatus := "active"

def ThermalControlStatusStandby : ThermalControlStatus := "standby"

/-- DisplayTemperatureUnit configures what unit is used in the display
(sleepme.go line 133); a Go string type. -/
abbrev DisplayTemperatureUnit := String

def DisplayTemperatureUnitC : DisplayTemperatureUnit := "c"

def DisplayTemperatureUnitF : DisplayTemperatureUnit := "f"

/-- UpdateRequest contains all the fields that can be changed via the API
(sleepme.go lines 143-149).  Every Go field is a pointer with omitempty;
none models the nil pointer.  SetTemperatureF and SetTemperatureC are
pointers to float64. -/
structure UpdateRequest where
  ThermalControlStatusField : Option String
  SetTemperatureF : Option JNumber
  SetTemperatureC : Option JNumber
  DisplayTemperatureUnitField : Option String
  TimeZone : Option String
  deriving DecidableEq

/-! Decoding, modelling Go encoding/json unmarshalling into the concrete
types above.  Go's decoder records the first type mismatch it meets and
keeps decoding (decodeState.saveError), leaving the offending destination
unchanged; each primitive decoder below therefore returns the updated
value together with an optional first error. -/

def firstErr : Option String → Option String → Option String
  | some e, _ => some e
  | none, e2 => e2

/-- Decode a JSON value into a Go string destination.  JSON null leaves
the destination unchanged, as in Go. -/
def decodeStringField (cur : String) : Json → String × Option String
  | Json.str s => (s, none)
  | Json.null => (cur, none)
  | _ => (cur, some ("json: cannot unmarshal value into string field"))

/-- Decode into a Go int destination: only a plain integer literal is
accepted (Go runs strconv.ParseInt on the literal, so a fraction or an
exponent is a type error even when the value is integral). -/
def decodeIntField (cur : Int) : Json → Int × Option String
  | Json.num n =>
    if n.exp10 = 0 then (n.mantissa, none)
    else (cur, some ("json: cannot unmarshal number into int field"))
  | Json.null => (cur, none)
  | _ => (cur, some ("json: cannot unmarshal value into int field"))

def decodeBoolField (cur : Bool) : Json → Bool × Option String
  | Json.bool b => (b, none)
  | Json.null => (cur, none)
  | _ => (cur, some ("json: cannot unmarshal value into bool field"))

/-- Decode into a Go float64 destination. -/
def decodeNumField (cur : JNumber) : Json → JNumber × Option String
  | Json.num n => (n, none)
  | Json.null => (cur, none)
  | _ => (cur, some ("json: cannot unmarshal value into float64 field"))

/-- Decode into a Go []string destination: null stores the nil slice; an
array stores a same-length slice with mismatched elements left zero. -/
def decodeStringSlice (cur : Option (List String)) :
    Json → Option (List String) × Option String
  | Json.null => (none, none)
  | Json.arr xs =>
    let ds := xs.map (decodeStringField "")
    (some (ds.map Prod.fst), ds.foldl (fun e p => firstErr e p.2) none)
  | _ => (cur, some ("json: cannot unmarshal value into string slice field"))

/-- One object member applied to a Device destination.  Key matching is
Go's: the snake_case tag name, case-insensitively; unknown keys are
ignored. -/
def deviceField (acc : Device × Option String) (m : String × Json) :
    Device × Option String :=
  let k := keyLower m.1
  if k = "id" then
    let r := decodeStringField acc.1.ID m.2
    ({ acc.1 with ID := r.1 }, firstErr acc.2 r.2)
  else if k = "name" then
    let r := decodeStringField acc.1.Name m.2
    ({ acc.1 with Name := r.1 }, firstErr acc.2 r.2)
  else if k = "attachments" then
    let r := decodeStringSlice acc.1.Attachments m.2
    ({ acc.1 with Attachments := r.1 }, firstErr acc.2 r.2)
  else acc

def decodeDevice : Json → Device × Option String
  | Json.obj ms => ms.foldl deviceField (zeroDevice, none)
  | Json.null => (zeroDevice, none)
  | _ => (zeroDevice, some ("json: cannot unmarshal value into Device"))

/-- Decode into the []Device destination of ListDevices: null stores the
nil slice; an array stores a same-length slice in element order. -/
def decodeDeviceList : Json → Option (List Device) × Option String
  | Json.null => (none, none)
  | Json.arr xs =>
    let ds := xs.map decodeDevice
    (some (ds.map Prod.fst), ds.foldl (fun e p => firstErr e p.2) none)
  | _ => (none, some ("json: cannot unmarshal value into device slice"))

def aboutField (acc : DeviceAbout × Option String) (m : String × Json) :
    DeviceAbout × Option String :=
  let k := keyLower m.1
  if k = "firmware_version" then
    let r := decodeStringField acc.1.FirmwareVersion m.2
    ({ acc.1 with FirmwareVersion := r.1 }, firstErr acc.2 r.2)
  else if k = "ip_address" then
    let r := decodeStringField acc.1.IpAddress m.2
    ({ acc.1 with IpAddress := r.1 }, firstErr acc.2 r.2)
  else if k = "lan_address" then
    let r := decodeStringField acc.1.LanAddress m.2
    ({ acc.1 with LanAddress := r.1 }, firstErr acc.2 r.2)
  else if k = "mac_address" then
    let r := decodeStringField acc.1.MacAddress m.2
    ({ acc.1 with MacAddress := r.1 }, firstErr acc.2 r.2)
  else if k = "model" then
    let r := decodeStringField acc.1.Model m.2
    ({ acc.1 with Model := r.1 }, firstErr acc.2 r.2)
  else if k = "serial_number" then
    let r := decodeStringField acc.1.SerialNumber m.2
    ({ acc.1 with SerialNumber := r.1 }, firstErr acc.2 r.2)
  else acc

def decodeAbout (cur : DeviceAbout) : Json → DeviceAbout × Option String
  | Json.obj ms => ms.foldl aboutField (cur, none)
  | Json.null => (cur, none)
  | _ => (cur, some ("json: cannot unmarshal value into About group"))

def controlField (acc : DeviceControl × Option String) (m : String × Json) :
    DeviceControl × Option String :=
  let k := keyLower m.1
  if k = "brightness_level" then
    let r := decodeIntField acc.1.BrightnessLevel m.2
    ({ acc.1 with BrightnessLevel := r.1 }, firstErr acc.2 r.2)
  else if k = "display_temperature_unit" then
    let r := decodeStringField acc.1.DisplayTemperatureUnit m.2
    ({ acc.1 with DisplayTemperatureUnit := r.1 }, firstErr acc.2 r.2)
  else if k = "set_temperature_c" then
    let r := decodeIntField acc.1.SetTemperatureC m.2
    ({ acc.1 with SetTemperatureC := r.1 }, firstErr acc.2 r.2)
  else if k = "set_temperature_f" then
    let r := decodeIntField acc.1.SetTemperatureF m.2
    ({ acc.1 with SetTemperatureF := r.1 }, firstErr acc.2 r.2)
  else if k = "thermal_control_status" then
    let r := decodeStringField acc.1.ThermalControlStatus m.2
    ({ acc.1 with ThermalControlStatus := r.1 }, firstErr acc.2 r.2)
  else if k = "time_zone" then
    let r := decodeStringField acc.1.TimeZone m.2
    ({ acc.1 with TimeZone := r.1 }, firstErr acc.2 r.2)
  else acc

def decodeControl (cur : DeviceControl) : Json → DeviceControl × Option String
  | Json.obj ms => ms.foldl controlField (cur, none)
  | Json.null => (cur, none)
  | _ => (cur, some ("json: cannot unmarshal value into Control group"))

def statusField (acc : DeviceStatus × Option String) (m : String × Json) :
    DeviceStatus × Option String :=
  let k := keyLower m.1
  if k = "is_connected" then
    let r := decodeBoolField acc.1.IsConnected m.2
    ({ acc.1 with IsConnected := r.1 }, firstErr acc.2 r.2)
  else if k = "is_water_low" then
    let r := decodeBoolField acc.1.IsWaterLow m.2
    ({ acc.1 with IsWaterLow := r.1 }, firstErr acc.2 r.2)
  else if k = "water_level" then
    let r := decodeIntField acc.1.WaterLevel m.2
    ({ acc.1 with WaterLevel := r.1 }, firstErr acc.2 r.2)
  else if k = "water_temperature_f" then
    let r := decodeIntField acc.1.WaterTemperatureF m.2
    ({ acc.1 with WaterTemperatureF := r.1 }, firstErr acc.2 r.2)
  else if k = "water_temperature_c" then
    let r := decodeNumField acc.1.WaterTemperatureC m.2
    ({ acc.1 with WaterTemperatureC := r.1 }, firstErr acc.2 r.2)
  else acc

def decodeStatus (cur : DeviceStatus) : Json → DeviceStatus × Option String
  | Json.obj ms => ms.foldl statusField (cur, none)
  | Json.null => (cur, none)
  | _ => (cur, some ("json: cannot unmarshal value into Status group"))

def detailsField (acc : DeviceDetails × Option String) (m : String × Json) :
    DeviceDetails × Option String :=
  let k := keyLower m.1
  if k = "about" then
    let r := decodeAbout acc.1.About m.2
    ({ acc.1 with About := r.1 }, firstErr acc.2 r.2)
  else if k = "control" then
    let r := decodeControl acc.1.Control m.2
    ({ acc.1 with Control := r.1 }, firstErr acc.2 r.2)
  else if k = "status" then
    let r := decodeStatus acc.1.Status m.2
    ({ acc.1 with Status := r.1 }, firstErr acc.2 r.2)
  else acc

def decodeDeviceDetails (cur : DeviceDetails) : Json → DeviceDetails × Option String
  | Json.obj ms => ms.foldl detailsField (cur, none)
  | Json.null => (cur, none)
  | _ => (cur, some ("json: cannot unmarshal value into DeviceDetails"))

/-- Body decoding for ListDevices: the Go code declares a nil []Device and
returns it together with the Decode error (sleepme.go lines 65-66).  On a
scan failure nothing has been stored, so the slice is still nil. -/
def decodeDeviceListBody (body : String) : Option (List Device) × Option String :=
  match jsonParse body with
  | .error e => (none, some e)
  | .ok j => decodeDeviceList j

/-- Body decoding for Get: the Go code declares a zero DeviceDetails and
returns a pointer to it together with the Decode error (sleepme.go lines
118-119), so the record below is always produced, decoded as far as the
decoder got. -/
def decodeDeviceDetailsBody (body : String) : DeviceDetails × Option String :=
  match jsonParse body with
  | .error e => (zeroDeviceDetails, some e)
  | .ok j => decodeDeviceDetails zeroDeviceDetails j

/-! Encoding, modelling Go encoding/json marshalling of the concrete
types above.  Members appear in struct field order, as Go emits them. -/

def optMember (name : String) : Option Json → List (String × Json)
  | none => []
  | some j => [(name, j)]

/-- Marshalling of UpdateRequest: every field carries omitempty and is a
pointer, so a nil field is omitted entirely (sleepme.go lines 143-149). -/
def encodeUpdateRequest (r : UpdateRequest) : Json :=
  Json.obj (
    optMember "thermal_control_status" (r.ThermalControlStatusField.map Json.str) ++
    optMember "set_temperature_f" (r.SetTemperatureF.map Json.num) ++
    optMember "set_temperature_c" (r.SetTemperatureC.map Json.num) ++
    optMember "display_temperature_unit" (r.DisplayTemperatureUnitField.map Json.str) ++
    optMember "time_zone" (r.TimeZone.map Json.str))

def encodeDeviceAbout (a : DeviceAbout) : Json :=
  Json.obj [("firmware_version", Json.str a.FirmwareVersion),
            ("ip_address", Json.str a.IpAddress),
            ("lan_address", Json.str a.LanAddress),
            ("mac_address", Json.str a.MacAddress),
            ("model", Json.str a.Model),
            ("serial_number", Json.str a.SerialNumber)]

def encodeDeviceControl (c : DeviceControl) : Json :=
  Json.obj [("brightness_level", Json.num ⟨c.BrightnessLevel, 0⟩),
            ("display_temperature_unit", Json.str c.DisplayTemperatureUnit),
            ("set_temperature_c", Json.num ⟨c.SetTemperatureC, 0⟩),
            ("set_temperature_f", Json.num ⟨c.SetTemperatureF, 0⟩),
            ("thermal_control_status", Json.str c.ThermalControlStatus),
            ("time_zone", Json.str c.TimeZone)]

def encodeDeviceStatus (s : DeviceStatus) : Json :=
  Json.obj [("is_connected", Json.bool s.IsConnected),
            ("is_water_low", Json.bool s.IsWaterLow),
            ("water_level", Json.num ⟨s.WaterLevel, 0⟩),
            ("water_temperature_f", Json.num ⟨s.WaterTemperatureF, 0⟩),
            ("water_temperature_c", Json.num s.WaterTemperatureC)]

def encodeDeviceDetails (d : DeviceDetails) : Json :=
  Json.obj [("about", encodeDeviceAbout d.About),
            ("control", encodeDeviceControl d.Control),
            ("status", encodeDeviceStatus d.Status)]

/-! URL parsing, modelling the parts of Go net/url.Parse that
http.NewRequest exercises for the URLs this client builds: rejection of
control characters, splitting off fragment then query, scheme detection,
authority splitting after a double slash, and percent-escape validation in
the path and fragment.  Userinfo handling and host/port validation are not
modelled; the host is taken verbatim. -/

structure URL where
  Scheme : String
  Host : String
  Path : String
  RawQuery : String
  Fragment : String
  deriving DecidableEq

/-- Split at the first occurrence of a separator character, returning the
part before it and, when present, the part after it. -/
def splitFirst (sep : Char) : List Char → List Char × Option (List Char)
  | [] => ([], none)
  | c :: rest =>
    if c = sep then ([], some rest)
    else
      let p := splitFirst sep rest
      (c :: p.1, p.2)

def isAlphaChar (c : Char) : Bool :=
  let n := c.toNat
  (97 ≤ n && n ≤ 122) || (65 ≤ n && n ≤ 90)

def isSchemeTailChar (c : Char) : Bool :=
  isAlphaChar c || isDigitChar c || c = '+' || c = '-' || c = '.'

/-- Scheme detection as in net/url getScheme: letters then letters,
digits, plus, minus or dot, up to a colon; anything else means the URL has
no scheme part. -/
def findScheme (acc : List Char) : List Char → Option (List Char × List Char)
  | [] => none
  | c :: rest =>
    if c = ':' then
      (match acc with
       | [] => none
       | _ => some (acc.reverse, rest))
    else if (acc.isEmpty && isAlphaChar c) || (!acc.isEmpty && isSchemeTailChar c) then
      findScheme (c :: acc) rest
    else none

/-- Percent-escape validation and decoding, as net/url unescape performs
on the path and fragment: a percent sign must be followed by two hex
digits. -/
def unescapePath : List Char → Except String (List Char)
  | [] => .ok []
  | '%' :: a :: b :: rest =>
    (match unhex a, unhex b with
     | some ha, some hb =>
       (match unescapePath rest with
        | .ok out => .ok (Char.ofNat (ha * 16 + hb) :: out)
        | .error e => .error e)
     | _, _ => .error ("invalid URL escape " ++ String.mk ['%', a, b]))
  | '%' :: rest => .error ("invalid URL escape " ++ String.mk ('%' :: rest))
  | c :: rest =>
    (match unescapePath rest with
     | .ok out => .ok (c :: out)
     | .error e => .error e)

def hasCtlChar (cs : List Char) : Bool :=
  cs.any (fun c => c.toNat < 32 || c.toNat = 127)

/-- Modelled on net/url.Parse for the URL shapes this client builds. -/
def urlParse (raw : String) : Except String URL :=
  let cs := raw.data
  if hasCtlChar cs then .error ("net/url: invalid control character in URL")
  else
    let fr := splitFirst '#' cs
    match (match fr.2 with
           | none => Except.ok ""
           | some f =>
             (match unescapePath f with
              | .ok out => .ok (String.mk out)
              | .error e => Except.error e)) with
    | .error e => .error e
    | .ok fragment =>
      let sc : String × List Char :=
        match findScheme [] fr.1 with
        | some p => (String.mk p.1, p.2)
        | none => ("", fr.1)
      let qr := splitFirst '?' sc.2
      let rawQuery : String := String.mk (match qr.2 with | none => [] | some q => q)
      let hp : List Char × List Char :=
        match qr.1 with
        | '/' :: '/' :: rest => (rest.takeWhile (fun c => c ≠ '/'), rest.dropWhile (fun c => c ≠ '/'))
        | other => ([], other)
      match unescapePath hp.2 with
      | .error e => .error e
      | .ok path =>
        .ok ⟨sc.1, String.mk hp.1, String.mk path, rawQuery, fragment⟩

/-! HTTP model.  A request records the method, the raw URL string, the
headers in the order Header.Set produced them, and the encoded request
body when there is one; a response records the status code and the raw
body bytes.  The transport (http.Client.Do together with the network) is
a function from requests to either a transport error or a response. -/

structure HttpRequest where
  Method : String
  URLString : String
  Headers : List (String × String)
  ReqBody : Option Json

structure HttpResponse where
  StatusCode : Nat
  RespBody : String

abbrev Transport := HttpRequest → Except String HttpResponse

/-- Header.Set: replaces any existing value for the key. -/
def headerSet (hs : List (String × String)) (k v : String) : List (String × String) :=
  hs.filter (fun p => ¬ (p.1 = k)) ++ [(k, v)]

def headerGet (hs : List (String × String)) (k : String) : Option String :=
  (hs.find? (fun p => p.1 = k)).map (fun p => p.2)

/-- http.NewRequest: parses the URL and fails when net/url.Parse fails;
on success the request starts with no headers set. -/
def newRequest (method urlStr : String) (body : Option Json) :
    Except String HttpRequest :=
  match urlParse urlStr with
  | .error e => .error e
  | .ok _ => .ok ⟨method, urlStr, [], body⟩

/-- The errors an operation can report, in the shape the Go code produces
them: a URL construction error from http.NewRequest, a transport error
from http.Client.Do, the status error built by fmt.Errorf on a non-200
response, or a decode error from encoding/json. -/
inductive OpError where
  | urlError (msg : String) : OpError
  | transportError (msg : String) : OpError
  | statusError (code : Nat) : OpError
  | decodeError (msg : String) : OpError
  deriving DecidableEq

/-- The message carried by each error; a status error renders exactly the
fmt.Errorf format string of sleepme.go. -/
def OpError.message : OpError → String
  | .urlError m => m
  | .transportError m => m
  | .statusError code => "expected 200, got " ++ toString code
  | .decodeError m => m

/-- ProductionAPIEndpoint (sleepme.go line 14). -/
def ProductionAPIEndpoint : String := "https://api.developer.sleep.me/v1"

/-- Client state (sleepme.go lines 17-21).  The embedded *http.Client is
not part of the value: the transport it provides is passed to each
operation as a Transport argument. -/
structure Client where
  APIEndpoint : String
  token : String
  deriving DecidableEq

/-- Application of the option functions of New, in order, aborting at the
first failure (sleepme.go lines 30-34). -/
def applyOpts : Client → List (Client → Except String Client) → Except String Client
  | c, [] => .ok c
  | c, opt :: rest =>
    match opt c with
    | .error e => .error e
    | .ok c2 => applyOpts c2 rest

/-- New creates a new client (sleepme.go lines 24-36): the endpoint
defaults to ProductionAPIEndpoint before any option runs, and no network
transport is involved, as the signature shows. -/
def new (token : String) (opts : List (Client → Except String Client)) :
    Except String Client :=
  applyOpts ⟨ProductionAPIEndpoint, token⟩ opts

/-- Result of ListDevices: the Go pair ([]Device, error), where none
models the nil slice, together with the request handed to the transport
and whether the response body was closed. -/
structure ListDevicesResult where
  devices : Option (List Device)
  err : Option OpError
  sentRequest : Option HttpRequest
  bodyClosed : Bool

/-- ListDevices (sleepme.go lines 46-67).  The deferred resp.Body.Close()
runs on every path after Do succeeds, so every such outcome records a
closed body. -/
def listDevices (c : Client) (doReq : Transport) : ListDevicesResult :=
  match newRequest "GET" (c.APIEndpoint ++ "/devices") none with
  | .error e => ⟨none, some (.urlError e), none, false⟩
  | .ok req0 =>
    let req1 : HttpRequest :=
      { req0 with Headers := headerSet req0.Headers "Accept" "application/json" }
    let req : HttpRequest :=
      { req1 with Headers := headerSet req1.Headers "Authorization" ("Bearer " ++ c.token) }
    match doReq req with
    | .error e => ⟨none, some (.transportError e), some req, false⟩
    | .ok resp =>
      if resp.StatusCode ≠ 200 then
        ⟨none, some (.statusError resp.StatusCode), some req, true⟩
      else
        let dr := decodeDeviceListBody resp.RespBody
        ⟨dr.1, dr.2.map OpError.decodeError, some req, true⟩

/-- Result of Get: the Go pair (*DeviceDetails, error), where none models
the nil pointer. -/
structure GetResult where
  details : Option DeviceDetails
  err : Option OpError
  sentRequest : Option HttpRequest
  bodyClosed : Bool

/-- Get (sleepme.go lines 99-120).  On the 200 path the Go code returns
&res unconditionally, so the details pointer is non-nil there even when
Decode reports an error. -/
def get (c : Client) (doReq : Transport) (deviceID : String) : GetResult :=
  match newRequest "GET" (c.APIEndpoint ++ "/devices/" ++ deviceID) none with
  | .error e => ⟨none, some (.urlError e), none, false⟩
  | .ok req0 =>
    let req1 : HttpRequest :=
      { req0 with Headers := headerSet req0.Headers "Accept" "application/json" }
    let req : HttpRequest :=
      { req1 with Headers := headerSet req1.Headers "Authorization" ("Bearer " ++ c.token) }
    match doReq req with
    | .error e => ⟨none, some (.transportError e), some req, false⟩
    | .ok resp =>
      if resp.StatusCode ≠ 200 then
        ⟨none, some (.statusError resp.StatusCode), some req, true⟩
      else
        let dr := decodeDeviceDetailsBody resp.RespBody
        ⟨some dr.1, dr.2.map OpError.decodeError, some req, true⟩

/-- Result of Update: the Go error, the request handed to the transport,
and whether the response body was closed. -/
structure UpdateResult where
  err : Option OpError
  sentRequest : Option HttpRequest
  bodyClosed : Bool

/-- Update (sleepme.go lines 152-176).  Marshalling an UpdateRequest
cannot fail (its fields are pointers to strings and float64), so the Go
encode-error branch is unreachable and the body is always produced. -/
def update (c : Client) (doReq : Transport) (deviceID : String) (r : UpdateRequest) :
    UpdateResult :=
  match newRequest "PATCH" (c.APIEndpoint ++ "/devices/" ++ deviceID)
      (some (encodeUpdateRequest r)) with
  | .error e => ⟨some (.urlError e), none, false⟩
  | .ok req0 =>
    let req1 : HttpRequest :=
      { req0 with Headers := headerSet req0.Headers "Content-Type" "application/json" }
    let req : HttpRequest :=
      { req1 with Headers := headerSet req1.Headers "Authorization" ("Bearer " ++ c.token) }
    match doReq req with
    | .error e => ⟨some (.transportError e), some req, false⟩
    | .ok resp =>
      if resp.StatusCode ≠ 200 then
        ⟨some (.statusError resp.StatusCode), some req, true⟩
      else
        ⟨none, some req, true⟩

/-- Keys of a JSON object, in emission order. -/
def jsonObjKeys : Json → List String
  | Json.obj ms => ms.map Prod.fst
  | _ => []

/-! Claim theorems. -/

/-- C1: whenever the HTTP exchange completes with a status code other than
200, each of ListDevices, Get and Update returns the status error carrying
the observed code, and no decoded value: the device slice is nil and the
details pointer is nil.  The error message renders the observed code. -/
theorem claim1_non200_status_error (c : Client) (resp : HttpResponse)
    (id : String) (r : UpdateRequest) (ul ug : URL)
    (hl : urlParse (c.APIEndpoint ++ "/devices") = .ok ul)
    (hg : urlParse (c.APIEndpoint ++ "/devices/" ++ id) = .ok ug)
    (hne : resp.StatusCode ≠ 200) :
    (listDevices c (fun _ => .ok resp)).devices = none ∧
    (listDevices c (fun _ => .ok resp)).err = some (OpError.statusError resp.StatusCode) ∧
    (get c (fun _ => .ok resp) id).details = none ∧
    (get c (fun _ => .ok resp) id).err = some (OpError.statusError resp.StatusCode) ∧
    (update c (fun _ => .ok resp) id r).err = some (OpError.statusError resp.StatusCode) ∧
    OpError.message (OpError.statusError resp.StatusCode) =
      "expected 200, got " ++ toString resp.StatusCode := by
  simp only [listDevices, get, update, newRequest, hl, hg, OpError.message]
  simp [hne]

/-- C1 witness: a 404 on Get with the production endpoint. -/
theorem claim1_non200_witness :
    (get ⟨ProductionAPIEndpoint, "abc"⟩ (fun _ => .ok ⟨404, ""⟩) "d1").details = none ∧
    (get ⟨ProductionAPIEndpoint, "abc"⟩ (fun _ => .ok ⟨404, ""⟩) "d1").err =
      some (OpError.statusError 404) := by
  have h := claim1_non200_status_error ⟨ProductionAPIEndpoint, "abc"⟩ ⟨404, ""⟩ "d1"
    ⟨none, none, none, none, none⟩
    ⟨ "https", "api.developer.sleep.me", "/v1/devices", "", ""⟩
    ⟨ "https", "api.developer.sleep.me", "/v1/devices/d1", "", ""⟩
    rfl rfl (by decide)
  exact ⟨h.2.2.1, h.2.2.2.1⟩

/-- C2: Update sends exactly the serialization of its UpdateRequest, whose
JSON object holds precisely the populated fields, in struct order, with
absent fields omitted entirely; in particular an UpdateRequest with only
SetTemperatureF populated serializes to exactly the one-member object. -/
theorem claim2_sparse_serialization (c : Client) (doReq : Transport)
    (id : String) (r : UpdateRequest) (u : URL)
    (hu : urlParse (c.APIEndpoint ++ "/devices/" ++ id) = .ok u) :
    (∀ req, (update c doReq id r).sentRequest = some req →
      req.ReqBody = some (encodeUpdateRequest r)) ∧
    jsonObjKeys (encodeUpdateRequest r) =
      ((if r.ThermalControlStatusField.isSome then ["thermal_control_status"] else []) ++
       (if r.SetTemperatureF.isSome then ["set_temperature_f"] else []) ++
       (if r.SetTemperatureC.isSome then ["set_temperature_c"] else []) ++
       (if r.DisplayTemperatureUnitField.isSome then ["display_temperature_unit"] else []) ++
       (if r.TimeZone.isSome then ["time_zone"] else [])) ∧
    (∀ v : JNumber, encodeUpdateRequest ⟨none, some v, none, none, none⟩ =
      Json.obj [("set_temperature_f", Json.num v)]) := by
  refine ⟨?_, ?_, fun v => rfl⟩
  · intro req hreq
    simp only [update, newRequest, hu] at hreq
    revert hreq
    split
    · intro hreq
      cases hreq
      rfl
    · split
      · intro hreq
        cases hreq
        rfl
      · intro hreq
        cases hreq
        rfl
  · obtain ⟨t, f, cc, du, tz⟩ := r
    cases t <;> cases f <;> cases cc <;> cases du <;> cases tz <;> rfl

/-- C2 witness: only SetTemperatureF populated gives the one-member body. -/
theorem claim2_sparse_witness :
    encodeUpdateRequest ⟨none, some ⟨21, 0⟩, none, none, none⟩ =
      Json.obj [("set_temperature_f", Json.num ⟨21, 0⟩)] :=
  (claim2_sparse_serialization ⟨ProductionAPIEndpoint, "abc"⟩ (fun _ => .error ("t"))
    "d1" ⟨none, some ⟨21, 0⟩, none, none, none⟩
    ⟨ "https", "api.developer.sleep.me", "/v1/devices/d1", "", ""⟩ rfl).2.2 ⟨21, 0⟩

/-- C3: a 200 response whose body scans as a JSON array decodes to a
device slice of the same length, in element order; an empty array yields
the empty (non-nil) slice and no error. -/
theorem claim3_list_length_order (c : Client) (body : String) (xs : List Json)
    (u : URL)
    (hu : urlParse (c.APIEndpoint ++ "/devices") = .ok u)
    (hp : jsonParse body = .ok (Json.arr xs)) :
    (listDevices c (fun _ => .ok ⟨200, body⟩)).devices =
      some (xs.map (fun j => (decodeDevice j).1)) ∧
    (∀ ds, (listDevices c (fun _ => .ok ⟨200, body⟩)).devices = some ds →
      ds.length = xs.length) ∧
    (xs = [] →
      (listDevices c (fun _ => .ok ⟨200, body⟩)).devices = some [] ∧
      (listDevices c (fun _ => .ok ⟨200, body⟩)).err = none) := by
  have hdev : (listDevices c (fun _ => .ok ⟨200, body⟩)).devices =
      some (xs.map (fun j => (decodeDevice j).1)) := by
    simp [listDevices, newRequest, hu, decodeDeviceListBody, hp, decodeDeviceList]
  refine ⟨hdev, ?_, ?_⟩
  · intro ds hds
    rw [hdev] at hds
    cases hds
    simp
  · intro hnil
    subst hnil
    refine ⟨hdev, ?_⟩
    simp [listDevices, newRequest, hu, decodeDeviceListBody, hp, decodeDeviceList]

/-- C3 witness: an empty JSON array yields the empty slice and no error. -/
theorem claim3_list_witness :
    (listDevices ⟨ProductionAPIEndpoint, "abc"⟩ (fun _ => .ok ⟨200, "[]"⟩)).devices = some [] ∧
    (listDevices ⟨ProductionAPIEndpoint, "abc"⟩ (fun _ => .ok ⟨200, "[]"⟩)).err = none :=
  (claim3_list_length_order ⟨ProductionAPIEndpoint, "abc"⟩ "[]" []
    ⟨ "https", "api.developer.sleep.me", "/v1/devices", "", ""⟩ rfl rfl).2.2 rfl

/-- C4: every request carries Authorization with the Bearer token;
ListDevices and Get send GET to the devices paths with Accept set to
application/json; Update sends PATCH with Content-Type application/json
and its header list carries no Accept entry. -/
theorem claim4_request_shape (c : Client) (doReq : Transport) (id : String)
    (r : UpdateRequest) (ul ug : URL)
    (hl : urlParse (c.APIEndpoint ++ "/devices") = .ok ul)
    (hg : urlParse (c.APIEndpoint ++ "/devices/" ++ id) = .ok ug) :
    (listDevices c doReq).sentRequest = some
      ⟨ "GET", c.APIEndpoint ++ "/devices",
        [("Accept", "application/json"), ("Authorization", "Bearer " ++ c.token)], none⟩ ∧
    (get c doReq id).sentRequest = some
      ⟨ "GET", c.APIEndpoint ++ "/devices/" ++ id,
        [("Accept", "application/json"), ("Authorization", "Bearer " ++ c.token)], none⟩ ∧
    (update c doReq id r).sentRequest = some
      ⟨ "PATCH", c.APIEndpoint ++ "/devices/" ++ id,
        [("Content-Type", "application/json"), ("Authorization", "Bearer " ++ c.token)],
        some (encodeUpdateRequest r)⟩ ∧
    headerGet [("Content-Type", "application/json"),
      ("Authorization", "Bearer " ++ c.token)] "Accept" = none ∧
    headerGet [("Accept", "application/json"),
      ("Authorization", "Bearer " ++ c.token)] "Authorization" = some ("Bearer " ++ c.token) := by
  refine ⟨?_, ?_, ?_, rfl, rfl⟩
  · simp only [listDevices, newRequest, hl]
    split
    · rfl
    · split <;> rfl
  · simp only [get, newRequest, hg]
    split
    · rfl
    · split <;> rfl
  · simp only [update, newRequest, hg]
    split
    · rfl
    · split <;> rfl

/-- C4 witness: the Get request of the 404 scenario at the production
endpoint. -/
theorem claim4_request_witness :
    (get ⟨ProductionAPIEndpoint, "abc"⟩ (fun _ => .ok ⟨404, ""⟩) "d1").sentRequest = some
      ⟨ "GET", ProductionAPIEndpoint ++ "/devices/" ++ "d1",
        [("Accept", "application/json"), ("Authorization", "Bearer " ++ "abc")], none⟩ :=
  (claim4_request_shape ⟨ProductionAPIEndpoint, "abc"⟩ (fun _ => .ok ⟨404, ""⟩) "d1"
    ⟨none, none, none, none, none⟩
    ⟨ "https", "api.developer.sleep.me", "/v1/devices", "", ""⟩
    ⟨ "https", "api.developer.sleep.me", "/v1/devices/d1", "", ""⟩ rfl rfl).2.1

/-- C5: on a 200 response whose body does not scan as JSON, ListDevices
and Get report the decode error; on a body that scans as a JSON value of
the wrong shape (a bare number), they also report a decode error rather
than succeeding silently. -/
theorem claim5_malformed_json (c : Client) (body1 body2 e : String)
    (n : JNumber) (id : String) (ul ug : URL)
    (hl : urlParse (c.APIEndpoint ++ "/devices") = .ok ul)
    (hg : urlParse (c.APIEndpoint ++ "/devices/" ++ id) = .ok ug)
    (hp : jsonParse body1 = .error e)
    (hn : jsonParse body2 = .ok (Json.num n)) :
    (listDevices c (fun _ => .ok ⟨200, body1⟩)).err = some (OpError.decodeError e) ∧
    (get c (fun _ => .ok ⟨200, body1⟩) id).err = some (OpError.decodeError e) ∧
    ((listDevices c (fun _ => .ok ⟨200, body2⟩)).err).isSome = true ∧
    ((get c (fun _ => .ok ⟨200, body2⟩) id).err).isSome = true := by
  refine ⟨?_, ?_, ?_, ?_⟩
  · simp [listDevices, newRequest, hl, decodeDeviceListBody, hp]
  · simp [get, newRequest, hg, decodeDeviceDetailsBody, hp]
  · simp [listDevices, newRequest, hl, decodeDeviceListBody, hn, decodeDeviceList]
  · simp [get, newRequest, hg, decodeDeviceDetailsBody, hn, decodeDeviceDetails]

/-- C5 witness: the body "not json" fails to scan and the body "5" scans
as a bare number; both produce decode errors on both read operations. -/
theorem claim5_malformed_witness :
    (listDevices ⟨ProductionAPIEndpoint, "abc"⟩
      (fun _ => .ok ⟨200, "not json"⟩)).err =
      some (OpError.decodeError ("invalid character in literal null")) ∧
    ((get ⟨ProductionAPIEndpoint, "abc"⟩ (fun _ => .ok ⟨200, "5"⟩) "d1").err).isSome = true := by
  have h := claim5_malformed_json ⟨ProductionAPIEndpoint, "abc"⟩ "not json" "5"
    "invalid character in literal null" ⟨5, 0⟩ "d1"
    ⟨ "https", "api.developer.sleep.me", "/v1/devices", "", ""⟩
    ⟨ "https", "api.developer.sleep.me", "/v1/devices/d1", "", ""⟩
    rfl rfl rfl rfl
  exact ⟨h.1, h.2.2.2⟩

/-- C6 counterexample: on a 200 response whose body is the single byte
left-brace, Get returns a decode error and, at the same time, a non-nil
details pointer (to the zero record), because the Go code returns &res
unconditionally on the 200 path; likewise ListDevices on an array with a
bad second element returns a non-nil two-element slice alongside its
error.  This refutes the claim that a non-nil error comes with no decoded
result. -/
theorem claim6_counterexample :
    ((get ⟨ProductionAPIEndpoint, "abc"⟩ (fun _ => .ok ⟨200, "\x7b"⟩) "d1").err).isSome = true ∧
    ((get ⟨ProductionAPIEndpoint, "abc"⟩ (fun _ => .ok ⟨200, "\x7b"⟩) "d1").details).isSome = true ∧
    ((listDevices ⟨ProductionAPIEndpoint, "abc"⟩
      (fun _ => .ok ⟨200, "[\x7b\"id\":\"d1\",\"name\":\"n\",\"attachments\":[]\x7d,5]"⟩)).err).isSome = true ∧
    (listDevices ⟨ProductionAPIEndpoint, "abc"⟩
      (fun _ => .ok ⟨200, "[\x7b\"id\":\"d1\",\"name\":\"n\",\"attachments\":[]\x7d,5]"⟩)).devices =
      some [⟨ "d1", "n", some []⟩, zeroDevice] :=
  ⟨rfl, rfl, rfl, rfl⟩

/-- C6 amended: status and transport failures yield exactly one error and
no decoded value; on a 200 response both read operations always yield
their decoded value (Get's pointer is non-nil even when the decoder
reports an error, and ListDevices returns whatever the decoder stored),
so the absence of a partial result holds on the non-200 and transport
paths only. -/
theorem claim6_amended_outcomes (c : Client) (resp : HttpResponse)
    (id : String) (msg : String) (ul ug : URL)
    (hl : urlParse (c.APIEndpoint ++ "/devices") = .ok ul)
    (hg : urlParse (c.APIEndpoint ++ "/devices/" ++ id) = .ok ug) :
    ((listDevices c (fun _ => .error msg)).devices = none ∧
     (listDevices c (fun _ => .error msg)).err = some (OpError.transportError msg)) ∧
    ((get c (fun _ => .error msg) id).details = none ∧
     (get c (fun _ => .error msg) id).err = some (OpError.transportError msg)) ∧
    (resp.StatusCode ≠ 200 →
      (listDevices c (fun _ => .ok resp)).devices = none ∧
      (get c (fun _ => .ok resp) id).details = none) ∧
    (resp.StatusCode = 200 →
      (get c (fun _ => .ok resp) id).details =
        some (decodeDeviceDetailsBody resp.RespBody).1 ∧
      (get c (fun _ => .ok resp) id).err =
        ((decodeDeviceDetailsBody resp.RespBody).2).map OpError.decodeError ∧
      (listDevices c (fun _ => .ok resp)).devices =
        (decodeDeviceListBody resp.RespBody).1) := by
  refine ⟨?_, ?_, ?_, ?_⟩
  · simp [listDevices, newRequest, hl]
  · simp [get, newRequest, hg]
  · intro hne
    constructor
    · simp [listDevices, newRequest, hl, hne]
    · simp [get, newRequest, hg, hne]
  · intro heq
    refine ⟨?_, ?_, ?_⟩
    · simp [get, newRequest, hg, heq]
    · simp [get, newRequest, hg, heq]
    · simp [listDevices, newRequest, hl, heq]

/-- C6 amended witness: the transport-failure path at the production
endpoint. -/
theorem claim6_amended_witness :
    (get ⟨ProductionAPIEndpoint, "abc"⟩ (fun _ => .error ("dial tcp: timeout")) "d1").details = none ∧
    (get ⟨ProductionAPIEndpoint, "abc"⟩ (fun _ => .error ("dial tcp: timeout")) "d1").err =
      some (OpError.transportError ("dial tcp: timeout")) :=
  (claim6_amended_outcomes ⟨ProductionAPIEndpoint, "abc"⟩ ⟨200, ""⟩ "d1"
    "dial tcp: timeout"
    ⟨ "https", "api.developer.sleep.me", "/v1/devices", "", ""⟩
    ⟨ "https", "api.developer.sleep.me", "/v1/devices/d1", "", ""⟩ rfl rfl).2.1

/-- C7: New starts from the production endpoint default, applies the
option functions in order to that initial client, aborts with the first
option failure without a client, and with no options returns the default
client; its signature involves no transport, so construction performs no
network call. -/
theorem claim7_construction (token e : String) (c1 : Client)
    (opt : Client → Except String Client)
    (opts : List (Client → Except String Client)) :
    new token [] = .ok ⟨ProductionAPIEndpoint, token⟩ ∧
    (opt ⟨ProductionAPIEndpoint, token⟩ = .error e →
      new token (opt :: opts) = .error e) ∧
    (opt ⟨ProductionAPIEndpoint, token⟩ = .ok c1 →
      new token (opt :: opts) = applyOpts c1 opts) ∧
    ProductionAPIEndpoint = "https://api.developer.sleep.me/v1" := by
  refine ⟨rfl, ?_, ?_, rfl⟩
  · intro h
    simp [new, applyOpts, h]
  · intro h
    simp [new, applyOpts, h]

/-- C7 witness: no options yields the default client; a failing first
option aborts construction with that failure. -/
theorem claim7_construction_witness :
    new "abc" [] = .ok ⟨ProductionAPIEndpoint, "abc"⟩ ∧
    new "abc" [fun _ => .error ("bad option")] = .error ("bad option") := by
  have h := claim7_construction "abc" "bad option" ⟨ProductionAPIEndpoint, "abc"⟩
    (fun _ => .error ("bad option")) []
  exact ⟨h.1, h.2.1 rfl⟩

/-- C8: once the transport returns a response, the response body is
closed on every outcome path of every operation: success, non-200 status
and decode failure alike (the response here is arbitrary, covering all
three outcomes). -/
theorem claim8_body_closed (c : Client) (resp : HttpResponse) (id : String)
    (r : UpdateRequest) (ul ug : URL)
    (hl : urlParse (c.APIEndpoint ++ "/devices") = .ok ul)
    (hg : urlParse (c.APIEndpoint ++ "/devices/" ++ id) = .ok ug) :
    (listDevices c (fun _ => .ok resp)).bodyClosed = true ∧
    (get c (fun _ => .ok resp) id).bodyClosed = true ∧
    (update c (fun _ => .ok resp) id r).bodyClosed = true := by
  by_cases hs : resp.StatusCode = 200
  · refine ⟨?_, ?_, ?_⟩
    · simp [listDevices, newRequest, hl, hs]
    · simp [get, newRequest, hg, hs]
    · simp [update, newRequest, hg, hs]
  · refine ⟨?_, ?_, ?_⟩
    · simp [listDevices, newRequest, hl, hs]
    · simp [get, newRequest, hg, hs]
    · simp [update, newRequest, hg, hs]

/-- C8 witness: the body is closed on a success, on a 404 and on a decode
failure. -/
theorem claim8_body_closed_witness :
    (listDevices ⟨ProductionAPIEndpoint, "abc"⟩ (fun _ => .ok ⟨200, "[]"⟩)).bodyClosed = true ∧
    (get ⟨ProductionAPIEndpoint, "abc"⟩ (fun _ => .ok ⟨404, ""⟩) "d1").bodyClosed = true ∧
    (get ⟨ProductionAPIEndpoint, "abc"⟩ (fun _ => .ok ⟨200, "\x7b"⟩) "d1").bodyClosed = true := by
  have h1 := claim8_body_closed ⟨ProductionAPIEndpoint, "abc"⟩ ⟨200, "[]"⟩ "d1"
    ⟨none, none, none, none, none⟩
    ⟨ "https", "api.developer.sleep.me", "/v1/devices", "", ""⟩
    ⟨ "https", "api.developer.sleep.me", "/v1/devices/d1", "", ""⟩ rfl rfl
  have h2 := claim8_body_closed ⟨ProductionAPIEndpoint, "abc"⟩ ⟨404, ""⟩ "d1"
    ⟨none, none, none, none, none⟩
    ⟨ "https", "api.developer.sleep.me", "/v1/devices", "", ""⟩
    ⟨ "https", "api.developer.sleep.me", "/v1/devices/d1", "", ""⟩ rfl rfl
  have h3 := claim8_body_closed ⟨ProductionAPIEndpoint, "abc"⟩ ⟨200, "\x7b"⟩ "d1"
    ⟨none, none, none, none, none⟩
    ⟨ "https", "api.developer.sleep.me", "/v1/devices", "", ""⟩
    ⟨ "https", "api.developer.sleep.me", "/v1/devices/d1", "", ""⟩ rfl rfl
  exact ⟨h1.1, h2.2.1, h3.2.1⟩

/-- C9: decoding the serialization of any DeviceDetails record restores
every nested field with no error, so a fixture in the documented
snake_case shape round-trips: re-serializing the decoded record yields
the fixture again. -/
theorem claim9_roundtrip (d : DeviceDetails) :
    decodeDeviceDetails zeroDeviceDetails (encodeDeviceDetails d) = (d, none) ∧
    encodeDeviceDetails (decodeDeviceDetails zeroDeviceDetails (encodeDeviceDetails d)).1
      = encodeDeviceDetails d := by
  obtain ⟨⟨a1, a2, a3, a4, a5, a6⟩, ⟨b1, b2, b3, b4, b5, b6⟩, ⟨c1, c2, c3, c4, c5⟩⟩ := d
  exact ⟨rfl, rfl⟩

/-- C10: Get and Update interpolate the device identifier verbatim into
the request URL with no escaping; metacharacters in the identifier move
the following text into the path, query or fragment of the parsed URL;
and an identifier with an invalid percent escape makes request
construction fail with a URL error, which is a different constructor from
the status and transport errors. -/
theorem claim10_url_interpolation (c : Client) (doReq : Transport) (id : String) :
    (∀ u, urlParse (c.APIEndpoint ++ "/devices/" ++ id) = .ok u →
      ((get c doReq id).sentRequest).map HttpRequest.URLString =
        some (c.APIEndpoint ++ "/devices/" ++ id)) ∧
    (∀ u r, urlParse (c.APIEndpoint ++ "/devices/" ++ id) = .ok u →
      ((update c doReq id r).sentRequest).map HttpRequest.URLString =
        some (c.APIEndpoint ++ "/devices/" ++ id)) ∧
    urlParse ("https://api.example.test/v1" ++ "/devices/" ++ "x") =
      .ok ⟨ "https", "api.example.test", "/v1/devices/x", "", ""⟩ ∧
    urlParse ("https://api.example.test/v1" ++ "/devices/" ++ "x?y=1") =
      .ok ⟨ "https", "api.example.test", "/v1/devices/x", "y=1", ""⟩ ∧
    urlParse ("https://api.example.test/v1" ++ "/devices/" ++ "a/b") =
      .ok ⟨ "https", "api.example.test", "/v1/devices/a/b", "", ""⟩ ∧
    urlParse ("https://api.example.test/v1" ++ "/devices/" ++ "x#f") =
      .ok ⟨ "https", "api.example.test", "/v1/devices/x", "", "f"⟩ ∧
    (get ⟨ "https://api.example.test/v1", "abc"⟩ doReq "%zz").err =
      some (OpError.urlError ("invalid URL escape %zz")) ∧
    (∀ m code, OpError.urlError m ≠ OpError.statusError code) ∧
    (∀ m m2, OpError.urlError m ≠ OpError.transportError m2) := by
  refine ⟨?_, ?_, rfl, rfl, rfl, rfl, rfl, ?_, ?_⟩
  · intro u hu
    simp only [get, newRequest, hu]
    split
    · rfl
    · split <;> rfl
  · intro u r hu
    simp only [update, newRequest, hu]
    split
    · rfl
    · split <;> rfl
  · intro m code h
    cases h
  · intro m m2 h
    cases h

/-- C10 witness: the Get request URL at the production endpoint is the
verbatim interpolation of the identifier. -/
theorem claim10_url_witness :
    ((get ⟨ProductionAPIEndpoint, "abc"⟩ (fun _ => .error ("t")) "d1").sentRequest).map
      HttpRequest.URLString = some (ProductionAPIEndpoint ++ "/devices/" ++ "d1") :=
  (claim10_url_interpolation ⟨ProductionAPIEndpoint, "abc"⟩ (fun _ => .error ("t")) "d1").1
    ⟨ "https", "api.developer.sleep.me", "/v1/devices/d1", "", ""⟩ rfl

end SleepMe

